import Mathlib

/-!
Verification of the VisionMate Flask backend (src/app.py).

The program is a shared-state relay: a vision frontend POSTs detection
data, an ESP32 polls for the latest motor command, and a background
watchdog thread forces the state back to STOP when updates go stale.

Shallow-embedding conventions:
* Wall-clock instants (`datetime.now()`) are modelled as rationals
  (seconds).  The `timestamp` field, an ISO-8601 string in the source,
  is modelled as the instant itself; the string rendering has no
  algorithmic content.
* `confidence` (a Python float stored as given, never computed with)
  is modelled as a rational.
* The outcome of `request.get_json()` is modelled by `ReqBody`:
  `malformed msg` is the case where `get_json` raises (the exception
  text is `msg`), `parsedNone` is the case where it returns `None`,
  and `dict p c o extra` is a parsed JSON object with the optional
  relevant keys `position`, `confidence`, `object_detected`; `extra`
  records whether the object has any further keys (which makes it
  truthy even when all three relevant keys are absent).  JSON `null`
  values for the three keys and non-string/non-bool typed values are
  not modelled; claims only concern well-typed bodies.
* Each operation takes the current instant `now` as a parameter; the
  source's several `datetime.now()` calls inside one handler are
  identified with it.
-/

/-- `valid_positions = ['LEFT', 'RIGHT', 'CENTER', 'STOP']` (src/app.py:93,140). -/
def valid_positions : List String := ["LEFT", "RIGHT", "CENTER", "STOP"]

/-- `AUTO_RESET_SECONDS = 2.0` (src/app.py:23). -/
def AUTO_RESET_SECONDS : ℚ := 2

/-- The watchdog polling interval: `time.sleep(0.5)` (src/app.py:29). -/
def polling_interval : ℚ := 1/2

/-- Python's `str.upper()`, applied to the request's position string
(src/app.py:88,138).  Written by structural recursion over the
character list so that it evaluates inside the kernel. -/
def upper (s : String) : String := ⟨s.data.map Char.toUpper⟩

/-- The global `detection_state` dict (src/app.py:11-17). -/
structure DetectionState where
  position : String
  timestamp : ℚ
  confidence : ℚ
  object_detected : Bool
  last_update : Option ℚ
deriving DecidableEq, Repr

/-- The initialiser of `detection_state` (src/app.py:11-17): position STOP,
timestamp the startup instant, confidence 0.0, no object, `last_update = None`. -/
def initial_state (t0 : ℚ) : DetectionState :=
  { position := "STOP", timestamp := t0, confidence := 0,
    object_detected := false, last_update := none }

/-- The watchdog's reset action (src/app.py:38-40): set position to STOP,
clear `object_detected`, refresh `timestamp`; `last_update` and
`confidence` are not assigned.  (The spec calls this `force_reset`.) -/
def force_reset (now : ℚ) (s : DetectionState) : DetectionState :=
  { s with position := "STOP", object_detected := false, timestamp := now }

/-- One iteration of `auto_reset_worker`'s loop body after the sleep
(src/app.py:31-40): if `last_update` is set (a datetime is always truthy),
compute `time_diff = now - last_update`; if `time_diff > AUTO_RESET_SECONDS`
and `position != 'STOP'`, perform the reset; otherwise leave the state. -/
def auto_reset_tick (now : ℚ) (s : DetectionState) : DetectionState :=
  match s.last_update with
  | none => s
  | some lu =>
      if now - lu > AUTO_RESET_SECONDS ∧ s.position ≠ "STOP" then
        force_reset now s
      else s

/-- The outcome of `request.get_json()` for a POST body; see the header
comment for the encoding. -/
inductive ReqBody where
  | malformed (msg : String)
  | parsedNone
  | dict (position : Option String) (confidence : Option ℚ)
      (object_detected : Option Bool) (extra : Bool)
deriving DecidableEq, Repr

/-- Python truthiness of the value returned by `get_json()`, as tested by
`if not data:` (src/app.py:85): `None` is falsy, a dict is falsy iff empty. -/
def ReqBody.truthy : ReqBody → Bool
  | .malformed _ => false
  | .parsedNone => false
  | .dict p c o extra => p.isSome || c.isSome || o.isSome || extra

/-- A handler's JSON response: 200 with the optional `current_state`
payload, 400 (`jsonify(\x7b'error': msg\x7d), 400`), or 500 from the
`except Exception` fallback (src/app.py:113-115,157-158). -/
inductive HttpResponse where
  | ok (current_state : Option DetectionState)
  | clientError (msg : String)
  | serverError (msg : String)
deriving DecidableEq, Repr

/-- HTTP status code of a response. -/
def HttpResponse.status : HttpResponse → Nat
  | .ok _ => 200
  | .clientError _ => 400
  | .serverError _ => 500

/-- The 400 message for an invalid position (src/app.py:95,142):
the f-string interpolating `valid_positions`. -/
def invalid_position_msg : String :=
  "Invalid position. Must be one of: [\x27LEFT\x27, \x27RIGHT\x27, \x27CENTER\x27, \x27STOP\x27]"

/-- The `AttributeError` text raised by `data.get(...)` when `get_json()`
returned `None` in `manual_control` (src/app.py:138), caught at line 157. -/
def none_get_msg : String :=
  "\x27NoneType\x27 object has no attribute \x27get\x27"

/-- `update_detection`, the POST `/api/detection` handler (src/app.py:72-115).
Returns the HTTP response together with the (possibly updated) state.
A raising `get_json()` lands in the `except Exception` arm (500). -/
def update_detection (now : ℚ) (body : ReqBody) (s : DetectionState) :
    HttpResponse × DetectionState :=
  match body with
  | .malformed msg => (.serverError msg, s)
  | .parsedNone => (.clientError "No data provided", s)
  | .dict p c o extra =>
      if ¬(ReqBody.dict p c o extra).truthy then
        (.clientError "No data provided", s)
      else
        let position := upper (p.getD "STOP")
        let confidence := c.getD 0
        let object_detected := o.getD false
        if position ∉ valid_positions then
          (.clientError invalid_position_msg, s)
        else
          let s' : DetectionState :=
            { position := position, confidence := confidence,
              object_detected := object_detected,
              timestamp := now, last_update := some now }
          (.ok (some s'), s')

/-- `manual_control`, the POST `/api/manual` handler (src/app.py:130-158).
There is no `if not data` guard: a `None` body raises `AttributeError`
at `data.get`, caught by `except Exception` (500). -/
def manual_control (now : ℚ) (body : ReqBody) (s : DetectionState) :
    HttpResponse × DetectionState :=
  match body with
  | .malformed msg => (.serverError msg, s)
  | .parsedNone => (.serverError none_get_msg, s)
  | .dict p _ _ _ =>
      let position := upper (p.getD "STOP")
      if position ∉ valid_positions then
        (.clientError invalid_position_msg, s)
      else
        (.ok none,
         { s with position := position, timestamp := now,
                  last_update := some now,
                  object_detected := decide (position ≠ "STOP") })

/-- The payload of GET `/api/position` (src/app.py:59-70). -/
structure PositionView where
  position : String
  timestamp : ℚ
  object_detected : Bool
deriving DecidableEq, Repr

/-- `get_position` (src/app.py:59-70): project the three returned fields. -/
def get_position (s : DetectionState) : PositionView :=
  { position := s.position, timestamp := s.timestamp,
    object_detected := s.object_detected }

/-- Run a sequence of watchdog ticks at the given instants. -/
def run_ticks (ts : List ℚ) (s : DetectionState) : DetectionState :=
  ts.foldl (fun s t => auto_reset_tick t s) s

/-- The instants of the first `n` watchdog ticks when the loop starts at
`t0`: each iteration sleeps 500ms and then inspects the state
(src/app.py:28-29), so tick k happens at `t0 + k * polling_interval`. -/
def tick_times (t0 : ℚ) (n : ℕ) : List ℚ :=
  (List.range n).map (fun (k : ℕ) => t0 + ((k : ℚ) + 1) * polling_interval)

/-- An externally triggered state transition: a watchdog tick, a POST
`/api/detection`, or a POST `/api/manual`, each at some instant. -/
inductive Op where
  | tick (now : ℚ)
  | detect (now : ℚ) (body : ReqBody)
  | manual (now : ℚ) (body : ReqBody)
deriving Repr

/-- The state after one operation (responses discarded). -/
def step (s : DetectionState) : Op → DetectionState
  | .tick now => auto_reset_tick now s
  | .detect now body => (update_detection now body s).2
  | .manual now body => (manual_control now body s).2

/-- The state after a sequence of operations. -/
def run_ops (s : DetectionState) (ops : List Op) : DetectionState :=
  ops.foldl step s

/-! ## Helper lemmas -/

/-- Equation for a tick when no external write has ever happened. -/
theorem auto_reset_tick_none (now : ℚ) (s : DetectionState)
    (h : s.last_update = none) : auto_reset_tick now s = s := by
  unfold auto_reset_tick
  rw [h]

/-- Equation for a tick when the last external write was at `lu`. -/
theorem auto_reset_tick_some (now lu : ℚ) (s : DetectionState)
    (h : s.last_update = some lu) :
    auto_reset_tick now s =
      if now - lu > AUTO_RESET_SECONDS ∧ s.position ≠ "STOP" then
        force_reset now s
      else s := by
  unfold auto_reset_tick
  rw [h]

/-- A tick on a state already at STOP is a no-op (the `position != 'STOP'`
conjunct of the guard fails). -/
theorem auto_reset_tick_stop (now : ℚ) (s : DetectionState)
    (h : s.position = "STOP") : auto_reset_tick now s = s := by
  cases hlu : s.last_update with
  | none => exact auto_reset_tick_none now s hlu
  | some lu =>
      rw [auto_reset_tick_some now lu s hlu, if_neg]
      intro hc
      exact hc.2 h

/-- Unfolding one tick off a tick sequence. -/
theorem run_ticks_cons (t : ℚ) (ts : List ℚ) (s : DetectionState) :
    run_ticks (t :: ts) s = run_ticks ts (auto_reset_tick t s) := rfl

/-- Any number of ticks on a state at STOP is a no-op. -/
theorem run_ticks_stop_noop (ts : List ℚ) (s : DetectionState)
    (h : s.position = "STOP") : run_ticks ts s = s := by
  induction ts with
  | nil => rfl
  | cons t ts ih =>
      show run_ticks ts (auto_reset_tick t s) = s
      rw [auto_reset_tick_stop t s h, ih]

/-- A tick never changes `last_update` or `confidence`. -/
theorem auto_reset_tick_frame (now : ℚ) (s : DetectionState) :
    (auto_reset_tick now s).last_update = s.last_update ∧
    (auto_reset_tick now s).confidence = s.confidence := by
  cases hlu : s.last_update with
  | none => rw [auto_reset_tick_none now s hlu]; exact ⟨hlu, rfl⟩
  | some lu =>
      rw [auto_reset_tick_some now lu s hlu]
      by_cases h : now - lu > AUTO_RESET_SECONDS ∧ s.position ≠ "STOP"
      · rw [if_pos h]; exact ⟨hlu, rfl⟩
      · rw [if_neg h]; exact ⟨hlu, rfl⟩

/-- If the last external write was at `T` and some tick in the sequence
happens more than `AUTO_RESET_SECONDS` after `T`, a non-STOP state is
driven to STOP with `object_detected` cleared, and stays there. -/
theorem run_ticks_resets (T : ℚ) (ts : List ℚ) (s : DetectionState)
    (hlu : s.last_update = some T) (hpos : s.position ≠ "STOP")
    (hw : ∃ t ∈ ts, AUTO_RESET_SECONDS < t - T) :
    (run_ticks ts s).position = "STOP" ∧
    (run_ticks ts s).object_detected = false := by
  induction ts generalizing s with
  | nil => simp at hw
  | cons t ts ih =>
      rw [run_ticks_cons]
      by_cases hfire : t - T > AUTO_RESET_SECONDS
      · have htick : auto_reset_tick t s = force_reset t s := by
          rw [auto_reset_tick_some t T s hlu, if_pos ⟨hfire, hpos⟩]
        rw [htick, run_ticks_stop_noop ts (force_reset t s) rfl]
        exact ⟨rfl, rfl⟩
      · have htick : auto_reset_tick t s = s := by
          rw [auto_reset_tick_some t T s hlu, if_neg]
          intro hc
          exact hfire hc.1
        rw [htick]
        rcases hw with ⟨u, hu, hugt⟩
        rcases List.mem_cons.1 hu with rfl | hu
        · exact absurd hugt hfire
        · exact ih s hlu hpos ⟨u, hu, hugt⟩

/-- Every tick either leaves the state alone or sets position to STOP. -/
theorem auto_reset_tick_cases (now : ℚ) (s : DetectionState) :
    auto_reset_tick now s = s ∨ (auto_reset_tick now s).position = "STOP" := by
  cases hlu : s.last_update with
  | none => exact Or.inl (auto_reset_tick_none now s hlu)
  | some lu =>
      rw [auto_reset_tick_some now lu s hlu]
      by_cases h : now - lu > AUTO_RESET_SECONDS ∧ s.position ≠ "STOP"
      · right
        rw [if_pos h]
        rfl
      · left
        rw [if_neg h]

/-- A valid position string is already uppercase: `upper` fixes it. -/
theorem upper_of_valid (p : String) (h : p ∈ valid_positions) : upper p = p := by
  simp only [valid_positions, List.mem_cons, List.not_mem_nil, or_false] at h
  rcases h with rfl | rfl | rfl | rfl <;> decide

/-- Each operation keeps `position` inside the four-value enum. -/
theorem step_preserves_valid (s : DetectionState) (op : Op)
    (h : s.position ∈ valid_positions) :
    (step s op).position ∈ valid_positions := by
  cases op with
  | tick now =>
      rcases auto_reset_tick_cases now s with heq | hstop
      · simpa [step, heq] using h
      · simp only [step]
        rw [hstop]
        decide
  | detect now body =>
      cases body with
      | malformed msg => exact h
      | parsedNone => exact h
      | dict p c o extra =>
          simp only [step, update_detection]
          by_cases ht : ¬(ReqBody.dict p c o extra).truthy
          · simp [ht, h]
          · simp only [ht, if_false]
            by_cases hv : upper (p.getD "STOP") ∉ valid_positions
            · simp [hv, h]
            · simp only [hv, if_false]
              exact not_not.1 hv
  | manual now body =>
      cases body with
      | malformed msg => exact h
      | parsedNone => exact h
      | dict p c o extra =>
          simp only [step, manual_control]
          by_cases hv : upper (p.getD "STOP") ∉ valid_positions
          · simp [hv, h]
          · simp only [hv, if_false]
            exact not_not.1 hv

/-! ## Claim theorems -/

/-- C1: on every watchdog tick, the forced reset (position STOP,
`object_detected` false, fresh timestamp) happens exactly when
`last_update` is set, more than `AUTO_RESET_SECONDS` have elapsed since
it, and the position is not STOP; in every other case (no `last_update`,
staleness not exceeded, or already STOP) the state is left unchanged. -/
theorem auto_reset_tick_characterization (now : ℚ) (s : DetectionState) :
    (∀ lu, s.last_update = some lu → AUTO_RESET_SECONDS < now - lu →
      s.position ≠ "STOP" → auto_reset_tick now s = force_reset now s) ∧
    (s.last_update = none → auto_reset_tick now s = s) ∧
    (∀ lu, s.last_update = some lu → now - lu ≤ AUTO_RESET_SECONDS →
      auto_reset_tick now s = s) ∧
    (s.position = "STOP" → auto_reset_tick now s = s) := by
  refine ⟨?_, ?_, ?_, ?_⟩
  · intro lu hlu hgt hpos
    unfold auto_reset_tick
    rw [hlu]
    simp [hgt, hpos]
  · intro hlu
    unfold auto_reset_tick
    rw [hlu]
  · intro lu hlu hle
    unfold auto_reset_tick
    rw [hlu]
    have : ¬(now - lu > AUTO_RESET_SECONDS ∧ s.position ≠ "STOP") := by
      intro hc
      exact absurd hle (not_le.2 hc.1)
    simp only [this, if_false]
  · exact auto_reset_tick_stop now s

/-- Witness for C1: a concrete stale LEFT state at elapsed 3s is reset. -/
theorem auto_reset_tick_characterization_witness :
    auto_reset_tick 3 ⟨"LEFT", 0, 1/2, true, some 0⟩ =
      force_reset 3 ⟨"LEFT", 0, 1/2, true, some 0⟩ :=
  (auto_reset_tick_characterization 3 ⟨"LEFT", 0, 1/2, true, some 0⟩).1 0 rfl
    (by norm_num [AUTO_RESET_SECONDS]) (by simp)

/-- C2: after a successful LEFT write at time `T` and no further external
write, once the watchdog (polling every 500ms since `t0 ≤ T`) has ticked
through any `ε > polling_interval` past `T + AUTO_RESET_SECONDS`, a read
returns position STOP and `object_detected = false`. -/
theorem staleness_reset (T ε c t0 : ℚ) (d : Bool) (s0 : DetectionState) (n : ℕ)
    (ht0 : t0 ≤ T) (hε : polling_interval < ε)
    (hn : T + AUTO_RESET_SECONDS + ε < t0 + (n + 1) * polling_interval) :
    (get_position (run_ticks (tick_times t0 n)
      (update_detection T (.dict (some "LEFT") (some c) (some d) false) s0).2)).position
        = "STOP" ∧
    (get_position (run_ticks (tick_times t0 n)
      (update_detection T (.dict (some "LEFT") (some c) (some d) false) s0).2)).object_detected
        = false := by
  have hI : polling_interval = 1/2 := rfl
  have hA : AUTO_RESET_SECONDS = 2 := rfl
  have hs1 : (update_detection T (.dict (some "LEFT") (some c) (some d) false) s0).2 =
      { position := "LEFT", timestamp := T, confidence := c,
        object_detected := d, last_update := some T } := rfl
  rw [hs1]
  have hn1 : 1 ≤ n := by
    by_contra hlt
    have hn0 : n = 0 := by omega
    subst hn0
    push_cast at hn
    rw [hI] at hε
    rw [hA, hI] at hn
    linarith
  have hk : n - 1 < n := by omega
  have hcast : ((n - 1 : ℕ) : ℚ) + 1 = (n : ℚ) := by
    push_cast [Nat.cast_sub hn1]
    ring
  have hmem : t0 + (n : ℚ) * polling_interval ∈ tick_times t0 n := by
    have heq : t0 + (n : ℚ) * polling_interval
        = t0 + (((n - 1 : ℕ) : ℚ) + 1) * polling_interval := by rw [hcast]
    rw [heq, tick_times]
    exact List.mem_map_of_mem _ (List.mem_range.2 hk)
  have hgt : AUTO_RESET_SECONDS < (t0 + (n : ℚ) * polling_interval) - T := by
    have hexp : ((n : ℚ) + 1) * polling_interval
        = (n : ℚ) * polling_interval + polling_interval := by ring
    rw [hexp] at hn
    rw [hI] at hn hε ⊢
    rw [hA] at hn ⊢
    linarith
  have hres := run_ticks_resets T (tick_times t0 n)
    { position := "LEFT", timestamp := T, confidence := c,
      object_detected := d, last_update := some T }
    rfl (by simp) ⟨t0 + (n : ℚ) * polling_interval, hmem, hgt⟩
  exact ⟨hres.1, hres.2⟩

/-- Witness for C2: write LEFT at T = 0, watchdog started at 0, read after
3s (ε = 1 > 500ms), six ticks processed. -/
theorem staleness_reset_witness :
    (get_position (run_ticks (tick_times 0 6)
      (update_detection 0 (.dict (some "LEFT") (some (9/10)) (some true) false)
        (initial_state 0)).2)).position = "STOP" ∧
    (get_position (run_ticks (tick_times 0 6)
      (update_detection 0 (.dict (some "LEFT") (some (9/10)) (some true) false)
        (initial_state 0)).2)).object_detected = false :=
  staleness_reset 0 1 (9/10) 0 true (initial_state 0) 6 le_rfl
    (by norm_num [polling_interval])
    (by norm_num [AUTO_RESET_SECONDS, polling_interval])

/-- C3: the watchdog's reset changes only `position`, `object_detected`
and `timestamp`; it never touches `last_update` or `confidence` — and
neither does a full tick, under any condition. -/
theorem force_reset_frame (now : ℚ) (s : DetectionState) :
    (force_reset now s).last_update = s.last_update ∧
    (force_reset now s).confidence = s.confidence ∧
    (force_reset now s).position = "STOP" ∧
    (force_reset now s).object_detected = false ∧
    (force_reset now s).timestamp = now ∧
    (auto_reset_tick now s).last_update = s.last_update ∧
    (auto_reset_tick now s).confidence = s.confidence :=
  ⟨rfl, rfl, rfl, rfl, rfl,
    (auto_reset_tick_frame now s).1, (auto_reset_tick_frame now s).2⟩

/-- C4: a POST `/api/detection` whose position uppercases into the enum
replaces `position` (uppercased), `confidence` and `object_detected`,
stamps `timestamp` and `last_update` with the current time, returns the
updated snapshot, and a subsequent read sees exactly these values. -/
theorem update_detection_valid (now c : ℚ) (p : String) (d e : Bool)
    (s : DetectionState) (h : upper p ∈ valid_positions) :
    update_detection now (.dict (some p) (some c) (some d) e) s =
      (.ok (some { position := upper p, timestamp := now, confidence := c,
                   object_detected := d, last_update := some now }),
       { position := upper p, timestamp := now, confidence := c,
         object_detected := d, last_update := some now }) ∧
    get_position (update_detection now (.dict (some p) (some c) (some d) e) s).2 =
      { position := upper p, timestamp := now, object_detected := d } := by
  have hmain : update_detection now (.dict (some p) (some c) (some d) e) s =
      (.ok (some { position := upper p, timestamp := now, confidence := c,
                   object_detected := d, last_update := some now }),
       { position := upper p, timestamp := now, confidence := c,
         object_detected := d, last_update := some now }) := by
    unfold update_detection
    simp [ReqBody.truthy, h]
  refine ⟨hmain, ?_⟩
  rw [hmain]
  rfl

/-- Witness for C4: writing lowercase `left` with confidence 3/4. -/
theorem update_detection_valid_witness :
    update_detection 7 (.dict (some "left") (some (3/4)) (some true) false)
        (initial_state 0) =
      (.ok (some { position := upper "left", timestamp := 7, confidence := 3/4,
                   object_detected := true, last_update := some 7 }),
       { position := upper "left", timestamp := 7, confidence := 3/4,
         object_detected := true, last_update := some 7 }) ∧
    get_position (update_detection 7 (.dict (some "left") (some (3/4)) (some true) false)
        (initial_state 0)).2 =
      { position := upper "left", timestamp := 7, object_detected := true } :=
  update_detection_valid 7 (3/4) "left" true false (initial_state 0) (by decide)

/-- C5: a position whose uppercase form is outside the enum makes both
POST handlers answer 400 with the message listing the valid values, and
leaves the state record untouched. -/
theorem invalid_position_rejected (now : ℚ) (p : String) (c : Option ℚ)
    (o : Option Bool) (e : Bool) (s : DetectionState)
    (h : upper p ∉ valid_positions) :
    update_detection now (.dict (some p) c o e) s =
      (.clientError invalid_position_msg, s) ∧
    manual_control now (.dict (some p) c o e) s =
      (.clientError invalid_position_msg, s) ∧
    (HttpResponse.clientError invalid_position_msg).status = 400 := by
  refine ⟨?_, ?_, rfl⟩
  · unfold update_detection
    simp [ReqBody.truthy, h]
  · unfold manual_control
    simp [h]

/-- Witness for C5: the position string `bogus` is rejected by both
handlers without touching the initial state. -/
theorem invalid_position_rejected_witness :
    update_detection 1 (.dict (some "bogus") none none false) (initial_state 0) =
      (.clientError invalid_position_msg, initial_state 0) ∧
    manual_control 1 (.dict (some "bogus") none none false) (initial_state 0) =
      (.clientError invalid_position_msg, initial_state 0) ∧
    (HttpResponse.clientError invalid_position_msg).status = 400 :=
  invalid_position_rejected 1 "bogus" none none false (initial_state 0) (by decide)

/-- C6: in every reachable state — the initial one and any obtained by a
sequence of detection writes, manual writes and watchdog ticks — the
stored position is one of LEFT, RIGHT, CENTER, STOP. -/
theorem position_always_valid (t0 : ℚ) (ops : List Op) :
    (run_ops (initial_state t0) ops).position ∈ valid_positions := by
  have hrun : ∀ (l : List Op) (s : DetectionState),
      s.position ∈ valid_positions → (run_ops s l).position ∈ valid_positions := by
    intro l
    induction l with
    | nil => intro s h; exact h
    | cons op l ih =>
        intro s h
        exact ih (step s op) (step_preserves_valid s op h)
  refine hrun ops (initial_state t0) ?_
  show "STOP" ∈ valid_positions
  decide

/-- C7 counterexample: a malformed body makes both handlers answer 500
(the parse exception is caught by the generic `except Exception` arm),
not the claimed 400. -/
theorem malformed_body_counterexample :
    (manual_control 0 (.malformed "Failed to decode JSON object")
      (initial_state 0)).1.status = 500 ∧
    (update_detection 0 (.malformed "Failed to decode JSON object")
      (initial_state 0)).1.status = 500 ∧
    (500 : ℕ) ≠ 400 :=
  ⟨rfl, rfl, by decide⟩

/-- C7 amended: a malformed body is answered 500 with the exception text
by both handlers; a body parsed as `None` gets 400 `No data provided`
(a message that does not list the valid values) from `/api/detection`
but 500 (an `AttributeError`) from `/api/manual`; the state is unchanged
in every case. -/
theorem body_error_statuses (now : ℚ) (msg : String) (s : DetectionState) :
    update_detection now (.malformed msg) s = (.serverError msg, s) ∧
    manual_control now (.malformed msg) s = (.serverError msg, s) ∧
    update_detection now .parsedNone s = (.clientError "No data provided", s) ∧
    manual_control now .parsedNone s = (.serverError none_get_msg, s) ∧
    (HttpResponse.serverError msg).status = 500 ∧
    (HttpResponse.clientError "No data provided").status = 400 :=
  ⟨rfl, rfl, rfl, rfl, rfl, rfl⟩

/-- C8: once a tick actually performed a reset, every later tick — after
any further ticks and no intervening external write — leaves the state
unchanged: the `position != 'STOP'` guard suppresses repeated resets. -/
theorem no_repeated_reset (now t : ℚ) (s : DetectionState) (ts : List ℚ)
    (h : auto_reset_tick now s ≠ s) :
    auto_reset_tick t (run_ticks ts (auto_reset_tick now s)) =
      run_ticks ts (auto_reset_tick now s) := by
  have hstop : (auto_reset_tick now s).position = "STOP" := by
    rcases auto_reset_tick_cases now s with heq | hstop
    · exact absurd heq h
    · exact hstop
  rw [run_ticks_stop_noop ts _ hstop]
  exact auto_reset_tick_stop t _ hstop

/-- Witness for C8: after the reset at 3s of a stale LEFT state, the
ticks at 3.5s and 4s change nothing. -/
theorem no_repeated_reset_witness :
    auto_reset_tick 4 (run_ticks [7/2] (auto_reset_tick 3 ⟨"LEFT", 0, 1/2, true, some 0⟩)) =
      run_ticks [7/2] (auto_reset_tick 3 ⟨"LEFT", 0, 1/2, true, some 0⟩) :=
  no_repeated_reset 3 4 ⟨"LEFT", 0, 1/2, true, some 0⟩ [7/2]
    (by
      have hc : (3 : ℚ) - 0 > AUTO_RESET_SECONDS ∧
          (DetectionState.mk "LEFT" 0 (1/2) true (some 0)).position ≠ "STOP" :=
        ⟨by norm_num [AUTO_RESET_SECONDS], by decide⟩
      rw [auto_reset_tick_some 3 0 ⟨"LEFT", 0, 1/2, true, some 0⟩ rfl, if_pos hc]
      intro heq
      have hpos := congrArg DetectionState.position heq
      exact absurd hpos (by decide))

/-- C9: a manual write of a valid position sets it verbatim, derives
`object_detected = (position != STOP)`, refreshes `timestamp` and
`last_update`, and leaves `confidence` alone. -/
theorem manual_control_valid (now : ℚ) (p : String) (c : Option ℚ)
    (o : Option Bool) (e : Bool) (s : DetectionState) (h : p ∈ valid_positions) :
    (manual_control now (.dict (some p) c o e) s).2.position = p ∧
    (manual_control now (.dict (some p) c o e) s).2.object_detected
      = decide (p ≠ "STOP") ∧
    (manual_control now (.dict (some p) c o e) s).2.timestamp = now ∧
    (manual_control now (.dict (some p) c o e) s).2.last_update = some now ∧
    (manual_control now (.dict (some p) c o e) s).2.confidence = s.confidence := by
  have hup := upper_of_valid p h
  have hm0 : manual_control now (.dict (some p) c o e) s =
      (if upper p ∉ valid_positions then
        (.clientError invalid_position_msg, s)
      else
        (.ok none,
         { s with position := upper p, timestamp := now, last_update := some now,
                  object_detected := decide (upper p ≠ "STOP") })) := rfl
  rw [hm0, hup, if_neg (not_not_intro h)]
  exact ⟨rfl, rfl, rfl, rfl, rfl⟩

/-- Witness for C9: a manual RIGHT write over the initial state. -/
theorem manual_control_valid_witness :
    (manual_control 5 (.dict (some "RIGHT") none none false) (initial_state 0)).2.position
      = "RIGHT" ∧
    (manual_control 5 (.dict (some "RIGHT") none none false) (initial_state 0)).2.object_detected
      = decide ("RIGHT" ≠ "STOP") ∧
    (manual_control 5 (.dict (some "RIGHT") none none false) (initial_state 0)).2.timestamp
      = 5 ∧
    (manual_control 5 (.dict (some "RIGHT") none none false) (initial_state 0)).2.last_update
      = some 5 ∧
    (manual_control 5 (.dict (some "RIGHT") none none false) (initial_state 0)).2.confidence
      = (initial_state 0).confidence :=
  manual_control_valid 5 "RIGHT" none none false (initial_state 0) (by decide)

/-- C10: a falsy parsed body (`\x7b\x7d` or `None`) makes `/api/detection`
answer 400 `No data provided` and leaves the state unchanged, while a
non-empty body with the three keys absent succeeds with the per-field
defaults STOP / 0.0 / false. -/
theorem empty_body_rejected (now : ℚ) (s : DetectionState) :
    update_detection now (.dict none none none false) s =
      (.clientError "No data provided", s) ∧
    update_detection now .parsedNone s = (.clientError "No data provided", s) ∧
    update_detection now (.dict none none none true) s =
      (.ok (some { position := "STOP", timestamp := now, confidence := 0,
                   object_detected := false, last_update := some now }),
       { position := "STOP", timestamp := now, confidence := 0,
         object_detected := false, last_update := some now }) :=
  ⟨rfl, rfl, rfl⟩
